import Mathlib

/-!
Verification of the SWIFT MT message parser (`src/mt_parser.py`).

The embedding models the Python string primitives the parser uses
(`str.split`, `str.strip`, `str.replace`, slicing, `float(...)`) as total
functions over `List Char`, then translates `MTMessageParser.parse_message`,
`MTMessageParser.get_field` and the per-class accessors directly from the
source.  Components the spec describes but that have no implementation in
`src/` (typed `AmountError`s, the Balance decoder, the Validator) are
modelled from the spec and marked as such.
-/

/-- Models Python `str.strip()`: removes leading and trailing whitespace.
(ASCII whitespace; the messages in scope are ASCII.) -/
def pyStrip (s : String) : String :=
  ⟨((s.data.dropWhile Char.isWhitespace).reverse.dropWhile Char.isWhitespace).reverse⟩

/-- Models Python `value[n:]` slicing (clamps when `n` exceeds the length). -/
def pyDrop (s : String) (n : Nat) : String := ⟨s.data.drop n⟩

/-- Models Python `s.replace(',', '.')`; since the pattern is a single
character this is a character-wise substitution. -/
def pyReplaceCommaDot (s : String) : String :=
  ⟨s.data.map (fun c => if c = ',' then '.' else c)⟩

/-- Models Python `message.split(';')` over the character list: every
occurrence of `;` separates pieces, empty pieces are kept, and the result is
always non-empty. -/
def splitSemisL : List Char → List (List Char)
  | [] => [[]]
  | c :: cs =>
    if c = ';' then [] :: splitSemisL cs
    else
      match splitSemisL cs with
      | [] => [[c]]
      | t :: ts => (c :: t) :: ts

/-- Models Python `message.split(';')` at the `String` level. -/
def pySplitSemi (s : String) : List String := (splitSemisL s.data).map (⟨·⟩)

/-- Models Python `pair.split(':', 1)` when the pair contains a colon:
splits at the FIRST `:`, returning the text before and everything after
(which may itself contain colons).  Returns `none` when there is no colon. -/
def breakAtColon : List Char → Option (List Char × List Char)
  | [] => none
  | c :: cs =>
    if c = ':' then some ([], cs)
    else (breakAtColon cs).map (fun p => (c :: p.1, p.2))

/-- Value of a decimal digit string, most significant first. -/
def natOfDigits (l : List Char) : Nat := l.foldl (fun a c => 10 * a + (c.toNat - 48)) 0

/-- Leading sign of a Python numeric literal: `-` gives `true`. -/
def parseSignL : List Char → Bool × List Char
  | '+' :: r => (false, r)
  | '-' :: r => (true, r)
  | r => (false, r)

/-- Case-insensitive match of `word` as a prefix of the input; returns the
rest of the input on success. -/
def matchCaseInsensitive : List Char → List Char → Option (List Char)
  | [], rest => some rest
  | _ :: _, [] => none
  | w :: ws, c :: cs => if c.toLower = w then matchCaseInsensitive ws cs else none

/-- An exact decimal number `num / 10 ^ scale`.  Decoded amounts are kept in
this form (rather than `ℚ`) so that concrete runs of the parser reduce in the
kernel; `Dec.toRat` gives the numeric meaning. -/
structure Dec where
  num : Int
  scale : Nat
deriving DecidableEq

/-- Numeric meaning of a `Dec`. -/
def Dec.toRat (d : Dec) : ℚ := (d.num : ℚ) / (10 ^ d.scale : ℚ)

/-- Multiply a `Dec` by `10 ^ e` (used for the exponent part of a Python
float literal), keeping the value exact. -/
def Dec.shift10 (d : Dec) : Int → Dec
  | .ofNat n => if n ≤ d.scale then ⟨d.num, d.scale - n⟩ else ⟨d.num * (10 ^ (n - d.scale) : Nat), 0⟩
  | .negSucc n => ⟨d.num, d.scale + (n + 1)⟩

/-- Negate a `Dec`. -/
def Dec.neg (d : Dec) : Dec := ⟨-d.num, d.scale⟩

/-- Result of Python `float(...)` on a string: a finite value (carried
exactly as a decimal; IEEE-754 rounding is not modelled, and no claim in
scope depends on it), an infinity, or a NaN. -/
inductive PyFloat where
  | finite (d : Dec)
  | inf
  | ninf
  | nan
deriving DecidableEq

/-- The finite-literal grammar of Python `float(...)` after sign removal:
`digits [. digits] [e [sign] digits]`, requiring at least one mantissa
digit and consuming the whole input.  (Underscore digit grouping and
non-ASCII digits, which CPython also accepts, are not modelled; no claim
in scope involves them.) -/
def pyFloatFinite (l : List Char) : Option Dec :=
  let intPart := l.takeWhile Char.isDigit
  let r1 := l.dropWhile Char.isDigit
  let fracPart :=
    match r1 with
    | '.' :: rest => rest.takeWhile Char.isDigit
    | _ => []
  let r2 :=
    match r1 with
    | '.' :: rest => rest.dropWhile Char.isDigit
    | _ => r1
  if intPart = [] ∧ fracPart = [] then none
  else
    let mant : Dec := ⟨(natOfDigits (intPart ++ fracPart) : Int), fracPart.length⟩
    match r2 with
    | [] => some mant
    | e :: rest =>
      if e = 'e' ∨ e = 'E' then
        let (eneg, r3) := parseSignL rest
        let eds := r3.takeWhile Char.isDigit
        let r4 := r3.dropWhile Char.isDigit
        if eds ≠ [] ∧ r4 = [] then
          some (mant.shift10 (if eneg then -(natOfDigits eds : Int) else (natOfDigits eds : Int)))
        else none
      else none

/-- Models Python `float(s)` on a string argument: strip surrounding
whitespace, read an optional sign, then accept `inf`/`infinity`/`nan`
(case-insensitively) or a finite literal; `none` models `ValueError`. -/
def pyFloat (s : String) : Option PyFloat :=
  let l := (pyStrip s).data
  let (neg, r) := parseSignL l
  match matchCaseInsensitive "infinity".data r with
  | some [] => some (if neg then .ninf else .inf)
  | _ =>
    match matchCaseInsensitive "inf".data r with
    | some [] => some (if neg then .ninf else .inf)
    | _ =>
      match matchCaseInsensitive "nan".data r with
      | some [] => some .nan
      | _ => (pyFloatFinite r).map (fun d => .finite (if neg then d.neg else d))

/-! ## The parser, translated from `src/mt_parser.py` -/

/-- The tokenizing part of `MTMessageParser.parse_message`
(`src/mt_parser.py:13-17`): split the message on `;`, keep the segments
whose `strip()` is non-empty, and for each segment containing `:` split it
at the first `:` and strip the key and the value.  (The Python loop fuses
this with the dict insertion; the fold in `parse_message` below replays the
insertions in the same order.) -/
def tokenize (message : String) : List (String × String) :=
  ((pySplitSemi message).filter (fun pair => pyStrip pair != "")).filterMap
    (fun pair =>
      if pair.data.contains ':' then
        (breakAtColon pair.data).map (fun kv => (pyStrip ⟨kv.1⟩, pyStrip ⟨kv.2⟩))
      else none)

/-- `MTMessageParser.parse_message` (`src/mt_parser.py:11-18`).  The Python
dict is modelled as an association list onto which each `result[key] = value`
conses the new binding; `get_field` reads the first (most recent) binding, so
lookup behaves exactly like the dict: the last write to a tag wins and
earlier bindings for the same tag are unreachable. -/
def parse_message (message : String) : List (String × String) :=
  (tokenize message).foldl (fun result kv => kv :: result) []

/-- `MTMessageParser.get_field` (`src/mt_parser.py:20-21`), i.e.
`self.fields.get(field)`: `some` value or `none` when the tag is absent. -/
def get_field (message field : String) : Option String :=
  ((parse_message message).find? (fun p => p.1 == field)).map (·.2)

namespace MT103Parser

/-- `MT103Parser.get_transaction_reference` (`src/mt_parser.py:29-30`). -/
def get_transaction_reference (message : String) : Option String :=
  get_field message "20"

/-- `MT103Parser.get_amount` (`src/mt_parser.py:32-41`): if tag `32A` is
present and non-empty (Python truthiness), drop the first 6 characters,
substitute `,` → `.` and attempt `float(...)`; `none` models both the
`return None` branches (absent/empty tag and `ValueError`). -/
def get_amount (message : String) : Option PyFloat :=
  match get_field message "32A" with
  | some value =>
    if value ≠ "" then pyFloat (pyReplaceCommaDot (pyDrop value 6)) else none
  | none => none

end MT103Parser

namespace MT202Parser

/-- `MT202Parser.get_transaction_reference` (`src/mt_parser.py:46-47`). -/
def get_transaction_reference (message : String) : Option String :=
  get_field message "20"

/-- `MT202Parser.get_related_reference` (`src/mt_parser.py:49-50`). -/
def get_related_reference (message : String) : Option String :=
  get_field message "21"

/-- `MT202Parser.get_amount` (`src/mt_parser.py:52-60`); the body is
character-for-character the same as `MT103Parser.get_amount`. -/
def get_amount (message : String) : Option PyFloat :=
  match get_field message "32A" with
  | some value =>
    if value ≠ "" then pyFloat (pyReplaceCommaDot (pyDrop value 6)) else none
  | none => none

/-- `MT202Parser.get_beneficiary_institution` (`src/mt_parser.py:62-63`). -/
def get_beneficiary_institution (message : String) : Option String :=
  get_field message "58A"

end MT202Parser

namespace MT940Parser

/-- `MT940Parser.get_account_id` (`src/mt_parser.py:68-69`). -/
def get_account_id (message : String) : Option String :=
  get_field message "25"

/-- `MT940Parser.get_statement_number` (`src/mt_parser.py:71-72`). -/
def get_statement_number (message : String) : Option String :=
  get_field message "28C"

/-- `MT940Parser.get_opening_balance` (`src/mt_parser.py:74-75`): returns
the raw value of tag `60F` with no decoding. -/
def get_opening_balance (message : String) : Option String :=
  get_field message "60F"

/-- `MT940Parser.get_closing_balance` (`src/mt_parser.py:77-78`): returns
the raw value of tag `62F` with no decoding. -/
def get_closing_balance (message : String) : Option String :=
  get_field message "62F"

end MT940Parser

namespace MT900910Parser

/-- `MT900910Parser.get_amount` (`src/mt_parser.py:83-91`); the body is
character-for-character the same as `MT103Parser.get_amount`. -/
def get_amount (message : String) : Option PyFloat :=
  match get_field message "32A" with
  | some value =>
    if value ≠ "" then pyFloat (pyReplaceCommaDot (pyDrop value 6)) else none
  | none => none

/-- `MT900910Parser.get_debit_credit_advice` (`src/mt_parser.py:93-94`). -/
def get_debit_credit_advice (message : String) : Option String :=
  get_field message "61"

end MT900910Parser

/-- The MT103 example message from the repository's own test
(`src/test_mt_parser.py:6`) and `__main__` block. -/
def mt103_msg : String := "20:REF123;32A:210101USD1000,00;50K:/12345678;59:/87654321;"

/-- The MT940 example message from the repository's own test
(`src/test_mt_parser.py:20`). -/
def mt940_msg : String := "25:123456789;28C:00001/001;60F:C210101USD1000,00;62F:C210131USD1500,00;"

/-- The malformed MT103 message of spec §8 scenario 5. -/
def malformed_msg : String := "20REF123;32A:notanumber;"

/-! ## Spec-side definitions

The value of a (tag, value) pair under the last-write-wins policy, the
spec's wording of the tokenizer, and the spec-modelled components that have
no implementation in `src/`. -/

/-- Value of the LAST pair with the given tag, in input order (later pairs
take precedence); `none` when the tag never occurs.  This is the spec's
"last occurrence" notion, stated independently of the dict model. -/
def lastValue : List (String × String) → String → Option String
  | [], _ => none
  | p :: ps, k =>
    match lastValue ps k with
    | some v => some v
    | none => if p.1 = k then some p.2 else none

/-- The tokenizer as worded by spec §4.1, by direct recursion over the
`;`-separated segments: discard a segment that strips to empty, silently
discard a segment with no colon, otherwise split at the first colon and
keep the pair; input order is preserved.  (The claim is silent on
trimming; the key/value strips mirror the source's `key.strip()` /
`value.strip()`.) -/
def tokenize_spec : List String → List (String × String)
  | [] => []
  | seg :: rest =>
    if pyStrip seg = "" then tokenize_spec rest
    else
      match breakAtColon seg.data with
      | none => tokenize_spec rest
      | some (k, v) => (pyStrip ⟨k⟩, pyStrip ⟨v⟩) :: tokenize_spec rest

deriving instance DecidableEq for Except

/-- Spec §4.3 / §7: the typed amount-decode errors. -/
inductive AmountError where
  | TooShort
  | MalformedNumeric
deriving DecidableEq

/-- Spec §3: the structured money value produced by the AmountDecoder.
The value date is kept as the raw 6-character `YYMMDD` string. -/
structure DecodedAmount where
  currency : String
  value : Dec
  valueDate : String
deriving DecidableEq

/-- A plain decimal numeral: `digits [. digits]` with at least one digit,
consuming the whole input ("parse as a decimal number", spec §4.3). -/
def parseDecimal (s : String) : Option Dec :=
  let ds := s.data.takeWhile Char.isDigit
  match s.data.dropWhile Char.isDigit with
  | [] => if ds = [] then none else some ⟨(natOfDigits ds : Int), 0⟩
  | '.' :: r2 =>
    let fs := r2.takeWhile Char.isDigit
    if r2.dropWhile Char.isDigit = [] ∧ (ds ≠ [] ∨ fs ≠ []) then
      some ⟨(natOfDigits (ds ++ fs) : Int), fs.length⟩
    else none
  | _ => none

/-- Modelled from the spec: §4.3 `AmountDecoder.decode`, which has no
implementation in `src/` (the source's `get_amount` returns an untyped
`None`).  Characters `[0:6)` = value date, `[6:9)` = currency, remainder a
comma-decimal numeral; `TooShort` below 9 characters, `MalformedNumeric`
when the remainder is not decimal after `,` → `.`. -/
def AmountDecoder.decode (raw : String) : Except AmountError DecodedAmount :=
  if raw.data.length < 9 then .error .TooShort
  else
    match parseDecimal (pyReplaceCommaDot ⟨raw.data.drop 9⟩) with
    | some d => .ok ⟨⟨(raw.data.drop 6).take 3⟩, d, ⟨raw.data.take 6⟩⟩
    | none => .error .MalformedNumeric

/-- Spec §3: balance sign. -/
inductive Sign where
  | credit
  | debit
deriving DecidableEq

/-- Spec §7: balance decode errors (sign not `C`/`D`, or the amount portion
malformed, delegating to `AmountError` semantics). -/
inductive BalanceError where
  | BadSign
  | Amount (e : AmountError)
deriving DecidableEq

/-- Spec §3: a decoded balance.  The date is kept as the raw 6-character
`YYMMDD` string. -/
structure Balance where
  sign : Sign
  date : String
  currency : String
  amount : Dec
deriving DecidableEq

/-- Modelled from the spec: the `60F`/`62F`/`61` Balance decode of §4.4,
which has no implementation in `src/` (the source's balance accessors
return the raw strings).  Char 0 = `C`/`D` sign, chars `[1:7)` date,
`[7:10)` currency, remainder a comma-decimal numeral. -/
def decodeBalance (raw : String) : Except BalanceError Balance :=
  match raw.data with
  | [] => .error (.Amount .TooShort)
  | c :: rest =>
    if c = 'C' ∨ c = 'D' then
      if rest.length < 9 then .error (.Amount .TooShort)
      else
        match parseDecimal (pyReplaceCommaDot ⟨rest.drop 9⟩) with
        | some d =>
          .ok ⟨if c = 'C' then .credit else .debit, ⟨rest.take 6⟩, ⟨(rest.drop 6).take 3⟩, d⟩
        | none => .error (.Amount .MalformedNumeric)
    else .error .BadSign

/-- Spec §4.5 / §7: validation issues relevant to MT103. -/
inductive ValidationIssue where
  | MissingMandatoryField (tag : String)
  | AmountIssue (e : AmountError)
deriving DecidableEq

/-- Modelled from the spec: the §4.5 Validator for MT103, which has no
implementation in `src/`.  It reports the mandatory tag `20` when absent
and re-runs the AmountDecoder on tag `32A` when present, surfacing its
error; absence of the optional `32A` is not an issue. -/
def validateMT103 (message : String) : List ValidationIssue :=
  (match get_field message "20" with
   | some _ => []
   | none => [ValidationIssue.MissingMandatoryField "20"]) ++
  (match get_field message "32A" with
   | some v =>
     match AmountDecoder.decode v with
     | .error e => [ValidationIssue.AmountIssue e]
     | .ok _ => []
   | none => [])

/-! ## Helper lemmas -/

/-- Consing each element onto an accumulator reverses the list. -/
theorem foldl_cons_eq_reverse_append (l acc : List (String × String)) :
    l.foldl (fun d p => p :: d) acc = l.reverse ++ acc := by
  induction l generalizing acc with
  | nil => simp
  | cons p ps ih => simp [ih, List.append_assoc]

/-- Searching the reversed list front-to-back finds the value of the last
matching pair of the original list. -/
theorem find?_reverse_eq_lastValue (l : List (String × String)) (k : String) :
    (l.reverse.find? (fun p => p.1 == k)).map (·.2) = lastValue l k := by
  induction l with
  | nil => rfl
  | cons p ps ih =>
    rw [List.reverse_cons, List.find?_append]
    cases hf : ps.reverse.find? (fun p => p.1 == k) with
    | some q =>
      have hv : lastValue ps k = some q.2 := by rw [← ih, hf]; rfl
      simp [lastValue, hv, Option.or]
    | none =>
      have hv : lastValue ps k = none := by rw [← ih, hf]; rfl
      by_cases hk : p.1 = k
      · simp [lastValue, hv, Option.or, List.find?, hk]
      · have hk' : (p.1 == k) = false := beq_eq_false_iff_ne.mpr hk
        simp [lastValue, hv, Option.or, List.find?, hk, hk']

/-- `get_field` is the last-occurrence lookup over the tokenized pairs. -/
theorem get_field_eq_lastValue (message tag : String) :
    get_field message tag = lastValue (tokenize message) tag := by
  rw [get_field, parse_message, foldl_cons_eq_reverse_append, List.append_nil,
    find?_reverse_eq_lastValue]

/-- A colon-free segment yields no split. -/
theorem breakAtColon_eq_none (l : List Char) (h : l.contains ':' = false) :
    breakAtColon l = none := by
  induction l with
  | nil => rfl
  | cons c cs ih =>
    rw [List.contains_cons, Bool.or_eq_false_iff] at h
    have hc : c ≠ ':' := by
      intro e
      rw [e] at h
      simp at h
    rw [breakAtColon, if_neg hc, ih h.2]
    rfl

/-- Splitting happens at the FIRST colon: a colon-free prefix survives
verbatim and everything after the first colon (colons included) is the
value. -/
theorem breakAtColon_first (k rest : List Char) (h : ':' ∉ k) :
    breakAtColon (k ++ ':' :: rest) = some (k, rest) := by
  induction k with
  | nil => simp [breakAtColon]
  | cons c cs ih =>
    have hc : c ≠ ':' := fun e => h (e ▸ List.mem_cons_self c cs)
    have h' : ':' ∉ cs := fun m => h (List.mem_cons_of_mem c m)
    simp [breakAtColon, hc, ih h']

/-- The colon guard of the source (`if ':' in pair:`) is redundant given
`breakAtColon`: a colon-free segment already splits to `none`. -/
theorem tokenize_step_eq (pair : String) :
    (if pair.data.contains ':' then
       (breakAtColon pair.data).map (fun kv => (pyStrip ⟨kv.1⟩, pyStrip ⟨kv.2⟩))
     else none)
    = (breakAtColon pair.data).map (fun kv => (pyStrip ⟨kv.1⟩, pyStrip ⟨kv.2⟩)) := by
  cases hc : pair.data.contains ':' with
  | true => simp
  | false =>
    rw [breakAtColon_eq_none pair.data hc]
    simp

/-- The tokenizing pipeline of `parse_message` agrees with the segmentwise
recursion `tokenize_spec`. -/
theorem tokenize_pipeline_eq_spec (segs : List String) :
    (segs.filter (fun pair => pyStrip pair != "")).filterMap
      (fun pair =>
        if pair.data.contains ':' then
          (breakAtColon pair.data).map (fun kv => (pyStrip ⟨kv.1⟩, pyStrip ⟨kv.2⟩))
        else none) = tokenize_spec segs := by
  induction segs with
  | nil => rfl
  | cons seg rest ih =>
    rw [List.filter_cons]
    by_cases hb : pyStrip seg = ""
    · rw [if_neg (by simp [hb]),
        show tokenize_spec (seg :: rest) = tokenize_spec rest from by
          simp only [tokenize_spec]
          rw [if_pos hb]]
      exact ih
    · rw [if_pos (bne_iff_ne.mpr hb), List.filterMap_cons, tokenize_step_eq,
        show tokenize_spec (seg :: rest) =
            (match breakAtColon seg.data with
             | none => tokenize_spec rest
             | some (k, v) => (pyStrip ⟨k⟩, pyStrip ⟨v⟩) :: tokenize_spec rest) from by
          simp only [tokenize_spec]
          rw [if_neg hb]]
      cases breakAtColon seg.data with
      | none => exact ih
      | some kv =>
        obtain ⟨k, v⟩ := kv
        simp only [Option.map_some']
        rw [ih]

/-! ## Claims -/

/-- C1: the claim says that for a well-formed `32A` value the amount
accessor returns the comma-to-dot numeric value (for the test message,
1000.00 with currency USD).  The code is wrong: `get_amount` drops only
the 6 date characters, so `float` receives `"USD1000.00"`, raises, and the
accessor returns `None` — contradicting the repository's own test
(`src/test_mt_parser.py:9`).  This theorem evaluates the code at the
failing input and shows the spec-modelled decoder does produce
1000.00 USD there. -/
theorem c1_get_amount_code_bug :
    MT103Parser.get_amount mt103_msg = none
    ∧ get_field mt103_msg "32A" = some "210101USD1000,00"
    ∧ pyFloat (pyReplaceCommaDot (pyDrop "210101USD1000,00" 6)) = none
    ∧ AmountDecoder.decode "210101USD1000,00" = .ok ⟨"USD", ⟨100000, 2⟩, "210101"⟩
    ∧ Dec.toRat ⟨100000, 2⟩ = 1000 := by
  refine ⟨by decide, by decide, by decide, by decide, ?_⟩
  norm_num [Dec.toRat]

/-- C2 counterexample: the claim says amount decoding fails with the typed
error `TooShort` whenever the raw string has fewer than 9 characters and
never yields a silently wrong number; but on the 7-character raw value
`"1234567"` the code's accessor returns the number 7 (it only drops 6
characters and `float("7")` succeeds), so no `TooShort` failure and a
silently wrong number. -/
theorem c2_counterexample :
    MT103Parser.get_amount "32A:1234567" = some (.finite ⟨7, 0⟩)
    ∧ ("1234567".data.length < 9) := by
  exact ⟨by decide, by decide⟩

/-- C2 (amended): for every present, non-empty `32A` value `v`, the code's
amount decoding returns exactly Python `float` applied to `v` with its
first 6 characters dropped and `,` substituted by `.` — an untyped `none`
on malformed remainders, with no `TooShort`/`MalformedNumeric`
distinction, no 9-character check, and no exception (the decode is a total
function). -/
theorem c2_amount_decode_amended (message v : String)
    (h : get_field message "32A" = some v) (hv : v ≠ "") :
    MT103Parser.get_amount message = pyFloat (pyReplaceCommaDot (pyDrop v 6)) := by
  simp only [MT103Parser.get_amount, h]
  rw [if_pos hv]

/-- C2 witness: the amended characterization evaluated at the concrete
message `"32A:1234567"`. -/
theorem c2_amended_witness :
    MT103Parser.get_amount "32A:1234567" = pyFloat (pyReplaceCommaDot (pyDrop "1234567" 6)) :=
  c2_amount_decode_amended "32A:1234567" "1234567" (by decide) (by decide)

/-- C3 counterexample: the claim says the MT940 opening-balance accessor
returns a decoded Balance record (for the test message, amount 1000.00);
the code returns the raw `60F` string verbatim — the result is the
undecoded `"C210101USD1000,00"` (equal to the raw field lookup and not
even a decimal numeral), matching the repository's own test
(`src/test_mt_parser.py:24`). -/
theorem c3_counterexample :
    MT940Parser.get_opening_balance mt940_msg = some "C210101USD1000,00"
    ∧ MT940Parser.get_opening_balance mt940_msg = get_field mt940_msg "60F"
    ∧ parseDecimal "C210101USD1000,00" = none := by
  exact ⟨by decide, rfl, by decide⟩

/-- C3 (amended): `get_opening_balance` / `get_closing_balance` return the
raw string value of tag `60F` / `62F` with no decoding; for the test
message those raw values are `"C210101USD1000,00"` and
`"C210131USD1500,00"`, and the spec-modelled Balance decode applied to
them yields sign Credit, date 210101 / 210131, currency USD, amounts
1000.00 and 1500.00. -/
theorem c3_balances_raw (message : String) :
    MT940Parser.get_opening_balance message = get_field message "60F"
    ∧ MT940Parser.get_closing_balance message = get_field message "62F"
    ∧ MT940Parser.get_opening_balance mt940_msg = some "C210101USD1000,00"
    ∧ MT940Parser.get_closing_balance mt940_msg = some "C210131USD1500,00"
    ∧ decodeBalance "C210101USD1000,00" = .ok ⟨.credit, "210101", "USD", ⟨100000, 2⟩⟩
    ∧ decodeBalance "C210131USD1500,00" = .ok ⟨.credit, "210131", "USD", ⟨150000, 2⟩⟩
    ∧ Dec.toRat ⟨100000, 2⟩ = 1000 ∧ Dec.toRat ⟨150000, 2⟩ = 1500 := by
  refine ⟨rfl, rfl, by decide, by decide, by decide, by decide, ?_, ?_⟩ <;>
    norm_num [Dec.toRat]

/-- C4: for every message and tag, FieldMap lookup returns the value of
the LAST occurrence of the tag in input order; all four decoder classes
inherit the single `get_field` (`src/mt_parser.py:20-21`), as witnessed by
one raw-string accessor of each class. -/
theorem c4_last_write_wins (message tag : String) :
    get_field message tag = lastValue (tokenize message) tag
    ∧ MT103Parser.get_transaction_reference message = lastValue (tokenize message) "20"
    ∧ MT202Parser.get_related_reference message = lastValue (tokenize message) "21"
    ∧ MT940Parser.get_account_id message = lastValue (tokenize message) "25"
    ∧ MT900910Parser.get_debit_credit_advice message = lastValue (tokenize message) "61" :=
  ⟨get_field_eq_lastValue message tag, get_field_eq_lastValue message "20",
    get_field_eq_lastValue message "21", get_field_eq_lastValue message "25",
    get_field_eq_lastValue message "61"⟩

/-- C5: tokenization equals the spec's segmentwise algorithm — split on
`;`, discard empty/whitespace-only segments, silently discard colonless
segments, split survivors at the first `:` only, preserving input order
(the recursion `tokenize_spec` emits pairs in segment order); and the
split really is at the FIRST colon, so values may themselves contain
colons. -/
theorem c5_tokenizer :
    (∀ message : String, tokenize message = tokenize_spec (pySplitSemi message))
    ∧ (∀ pre post : String, ':' ∉ pre.data →
        breakAtColon (pre ++ ":" ++ post).data = some (pre.data, post.data)) := by
  constructor
  · intro message
    rw [tokenize]
    exact tokenize_pipeline_eq_spec (pySplitSemi message)
  · intro pre post h
    have e : (pre ++ ":" ++ post).data = pre.data ++ ':' :: post.data := by
      show (pre.data ++ [':']) ++ post.data = _
      rw [List.append_assoc]
      rfl
    rw [e]
    exact breakAtColon_first pre.data post.data h

/-- C5 witness: the tokenizer equivalence at a concrete message, and the
first-colon split at a concrete value containing a second colon. -/
theorem c5_witness :
    tokenize "20:A; ;xx;59:/87:65;" = tokenize_spec (pySplitSemi "20:A; ;xx;59:/87:65;")
    ∧ breakAtColon ("59" ++ ":" ++ "/87:65").data = some ("59".data, "/87:65".data) :=
  ⟨c5_tokenizer.1 "20:A; ;xx;59:/87:65;", c5_tokenizer.2 "59" "/87:65" (by decide)⟩

/-- C6 counterexample: the claim says every tag stored in the FieldMap is
non-empty; but the segment `":abc"` survives (it is non-blank and contains
a colon) and is stored under the EMPTY tag. -/
theorem c6_counterexample : ¬ ∀ p ∈ parse_message ":abc", p.1 ≠ "" := by decide

/-- C6 (amended): FieldMap construction is total by construction and drops
every malformed segment — each stored pair arises from a `;`-segment that
strips to non-empty and contains a colon, split at the first colon with
key and value stripped; values may be empty, and (contrary to the claim)
tags may be empty as well. -/
theorem c6_fieldmap_construction (message : String) (p : String × String)
    (hp : p ∈ parse_message message) :
    ∃ seg, seg ∈ pySplitSemi message ∧ pyStrip seg ≠ "" ∧ seg.data.contains ':' = true ∧
      ∃ kv, breakAtColon seg.data = some kv ∧ p = (pyStrip ⟨kv.1⟩, pyStrip ⟨kv.2⟩) := by
  rw [parse_message, foldl_cons_eq_reverse_append, List.append_nil, List.mem_reverse,
    tokenize] at hp
  obtain ⟨seg, hseg, hf⟩ := List.mem_filterMap.mp hp
  obtain ⟨hmem, hb⟩ := List.mem_filter.mp hseg
  refine ⟨seg, hmem, bne_iff_ne.mp hb, ?_⟩
  cases hc : seg.data.contains ':' with
  | false => rw [hc] at hf; simp at hf
  | true =>
    rw [hc] at hf
    simp only [if_true] at hf
    obtain ⟨kv, hkv, hgkv⟩ := Option.map_eq_some'.mp hf
    exact ⟨rfl, kv, hkv, hgkv.symm⟩

/-- C6 witness: the construction invariant applied to the stored pair of
the concrete message `"20:REF"`. -/
theorem c6_witness :
    ∃ seg, seg ∈ pySplitSemi "20:REF" ∧ pyStrip seg ≠ "" ∧ seg.data.contains ':' = true ∧
      ∃ kv, breakAtColon seg.data = some kv ∧
        (("20", "REF") : String × String) = (pyStrip ⟨kv.1⟩, pyStrip ⟨kv.2⟩) :=
  c6_fieldmap_construction "20:REF" ("20", "REF") (by decide)

/-- C7: on the malformed message `'20REF123;32A:notanumber;'` the colonless
first segment is dropped, so the transaction reference is absent; the
code's amount accessor returns `none` and the spec-modelled AmountDecoder
fails with `MalformedNumeric` on the `32A` value; the spec-modelled
Validator reports exactly `MissingMandatoryField(20)` and the amount issue
(a non-empty sequence), and reports nothing on the well-formed test
message.  All functions involved are total, so malformed content never
raises. -/
theorem c7_malformed_mt103 :
    MT103Parser.get_transaction_reference malformed_msg = none
    ∧ MT103Parser.get_amount malformed_msg = none
    ∧ get_field malformed_msg "32A" = some "notanumber"
    ∧ AmountDecoder.decode "notanumber" = .error .MalformedNumeric
    ∧ validateMT103 malformed_msg = [.MissingMandatoryField "20", .AmountIssue .MalformedNumeric]
    ∧ validateMT103 mt103_msg = [] := by
  exact ⟨by decide, by decide, by decide, by decide, by decide, by decide⟩

/-- C8: every accessor of the four decoder classes is total and returns
the explicit "not present" result `none` whenever its backing tag is
absent from the FieldMap (the raw-string accessors are the FieldMap lookup
itself; the amount accessors short-circuit to `none`). -/
theorem c8_accessors_total (message : String) :
    (get_field message "20" = none → MT103Parser.get_transaction_reference message = none)
    ∧ (get_field message "32A" = none → MT103Parser.get_amount message = none)
    ∧ (get_field message "20" = none → MT202Parser.get_transaction_reference message = none)
    ∧ (get_field message "21" = none → MT202Parser.get_related_reference message = none)
    ∧ (get_field message "32A" = none → MT202Parser.get_amount message = none)
    ∧ (get_field message "58A" = none → MT202Parser.get_beneficiary_institution message = none)
    ∧ (get_field message "25" = none → MT940Parser.get_account_id message = none)
    ∧ (get_field message "28C" = none → MT940Parser.get_statement_number message = none)
    ∧ (get_field message "60F" = none → MT940Parser.get_opening_balance message = none)
    ∧ (get_field message "62F" = none → MT940Parser.get_closing_balance message = none)
    ∧ (get_field message "32A" = none → MT900910Parser.get_amount message = none)
    ∧ (get_field message "61" = none → MT900910Parser.get_debit_credit_advice message = none) := by
  refine ⟨fun h => h, fun h => ?_, fun h => h, fun h => h, fun h => ?_, fun h => h,
    fun h => h, fun h => h, fun h => h, fun h => h, fun h => ?_, fun h => h⟩
  · simp [MT103Parser.get_amount, h]
  · simp [MT202Parser.get_amount, h]
  · simp [MT900910Parser.get_amount, h]

/-- C8 witness: every accessor returns `none` on the concrete message
`"X:Y"`, in which none of the known tags occurs. -/
theorem c8_witness :
    MT103Parser.get_transaction_reference "X:Y" = none
    ∧ MT103Parser.get_amount "X:Y" = none
    ∧ MT202Parser.get_transaction_reference "X:Y" = none
    ∧ MT202Parser.get_related_reference "X:Y" = none
    ∧ MT202Parser.get_amount "X:Y" = none
    ∧ MT202Parser.get_beneficiary_institution "X:Y" = none
    ∧ MT940Parser.get_account_id "X:Y" = none
    ∧ MT940Parser.get_statement_number "X:Y" = none
    ∧ MT940Parser.get_opening_balance "X:Y" = none
    ∧ MT940Parser.get_closing_balance "X:Y" = none
    ∧ MT900910Parser.get_amount "X:Y" = none
    ∧ MT900910Parser.get_debit_credit_advice "X:Y" = none :=
  ⟨(c8_accessors_total "X:Y").1 (by decide),
    (c8_accessors_total "X:Y").2.1 (by decide),
    (c8_accessors_total "X:Y").2.2.1 (by decide),
    (c8_accessors_total "X:Y").2.2.2.1 (by decide),
    (c8_accessors_total "X:Y").2.2.2.2.1 (by decide),
    (c8_accessors_total "X:Y").2.2.2.2.2.1 (by decide),
    (c8_accessors_total "X:Y").2.2.2.2.2.2.1 (by decide),
    (c8_accessors_total "X:Y").2.2.2.2.2.2.2.1 (by decide),
    (c8_accessors_total "X:Y").2.2.2.2.2.2.2.2.1 (by decide),
    (c8_accessors_total "X:Y").2.2.2.2.2.2.2.2.2.1 (by decide),
    (c8_accessors_total "X:Y").2.2.2.2.2.2.2.2.2.2.1 (by decide),
    (c8_accessors_total "X:Y").2.2.2.2.2.2.2.2.2.2.2 (by decide)⟩

/-- C9: the amount accessors of `MT103Parser`, `MT202Parser` and
`MT900910Parser` are extensionally equal — the three duplicated method
bodies compute one and the same function of the message. -/
theorem c9_amount_accessors_equal (message : String) :
    MT103Parser.get_amount message = MT202Parser.get_amount message
    ∧ MT202Parser.get_amount message = MT900910Parser.get_amount message :=
  ⟨rfl, rfl⟩

/-- C10: a message whose `32A` tag is present but empty is
indistinguishable, at every amount accessor, from one with no `32A` tag at
all: both give `none` (Python's `if value:` treats the empty string like
`None`). -/
theorem c10_empty_tag_like_absent (message : String)
    (h : get_field message "32A" = some "" ∨ get_field message "32A" = none) :
    MT103Parser.get_amount message = none
    ∧ MT202Parser.get_amount message = none
    ∧ MT900910Parser.get_amount message = none := by
  rcases h with h | h <;>
    exact ⟨by simp [MT103Parser.get_amount, h], by simp [MT202Parser.get_amount, h],
      by simp [MT900910Parser.get_amount, h]⟩

/-- C10 witness: the concrete message `";32A:;"` stores `32A` with an empty
value and every amount accessor returns `none`. -/
theorem c10_witness :
    MT103Parser.get_amount ";32A:;" = none
    ∧ MT202Parser.get_amount ";32A:;" = none
    ∧ MT900910Parser.get_amount ";32A:;" = none :=
  c10_empty_tag_like_absent ";32A:;" (Or.inl (by decide))
